import Mathlib

/-!
Shallow embedding of the device-aware admission-control subsystem of the
grub repository, translated from:
  src/middleware/enhancedValidation.ts  (DeviceRateLimitStore, DeviceRateLimit)
  src/utils/deviceId.ts                 (validateDeviceId)
  src/controllers/stock.controller.ts   (resetDeviceRateLimit endpoint)
Timestamps are modelled as natural numbers of milliseconds; the JavaScript
Map is modelled as an association list with replace-on-set semantics; the
middleware's try/catch is modelled with Except.  All definitions are
executable so that concrete runs can be settled by kernel evaluation.
-/

set_option maxRecDepth 4000

namespace Grub

/-- One counter entry of the store: translation of the RateLimitEntry
interface of enhancedValidation.ts (count, resetTime, firstRequest). -/
structure RateLimitEntry where
  count : Nat
  resetTime : Nat
  firstRequest : Nat
deriving Repr, DecidableEq

/-- The backing Map of DeviceRateLimitStore, as an association list. -/
abbrev Store := List (String × RateLimitEntry)

/-- Map.get: first binding of the key, if any. -/
def lookupKey (k : String) : Store → Option RateLimitEntry
  | [] => none
  | (k₂, e) :: rest => if k₂ = k then some e else lookupKey k rest

/-- Map.delete: remove the binding of the key. -/
def eraseKey (k : String) : Store → Store
  | [] => []
  | (k₂, e) :: rest => if k₂ = k then eraseKey k rest else (k₂, e) :: eraseKey k rest

/-- Map.set: bind the key to the entry, replacing any previous binding. -/
def setKey (k : String) (e : RateLimitEntry) (s : Store) : Store :=
  (k, e) :: eraseKey k s

/-- The keys of a JavaScript Map are pairwise distinct; stores reachable
from the empty Map through the operations below satisfy this. -/
def wfStore (s : Store) : Prop := (s.map Prod.fst).Nodup

/-- DeviceRateLimitStore.get: returns the entry if present; if present but
now is strictly past its resetTime, deletes it and returns none (lazy
expiry).  The pair is (returned value, store after the call). -/
def storeGet (now : Nat) (k : String) (s : Store) : Option RateLimitEntry × Store :=
  match lookupKey k s with
  | some e => if e.resetTime < now then (none, eraseKey k s) else (some e, s)
  | none => (none, s)

/-- DeviceRateLimitStore.increment: on a live entry, bump count by one and
store it back; otherwise create a fresh entry with count 1 and a window of
windowMs starting at now. -/
def storeIncrement (windowMs now : Nat) (k : String) (s : Store) : RateLimitEntry × Store :=
  let g := storeGet now k s
  match g.1 with
  | some e =>
      let e₂ := { e with count := e.count + 1 }
      (e₂, setKey k e₂ g.2)
  | none =>
      let e₂ : RateLimitEntry := { count := 1, resetTime := now + windowMs, firstRequest := now }
      (e₂, setKey k e₂ g.2)

/-- DeviceRateLimitStore.reset: unconditionally remove the key. -/
def storeReset (k : String) (s : Store) : Store := eraseKey k s

/-- DeviceRateLimitStore.cleanup: the periodic sweep; deletes every entry
whose resetTime is strictly past. -/
def storeCleanup (now : Nat) (s : Store) : Store :=
  s.filter (fun p => !(decide (p.2.resetTime < now)))

/-! ## Identity validation (src/utils/deviceId.ts, validateDeviceId) -/

/-- Character-wise lowercase, modelling the case-insensitive regex flag and
String.prototype.toLowerCase on the ASCII inputs at hand. -/
def lowerStr (s : String) : String := String.mk (s.data.map Char.toLower)

/-- Character class of the validator regex [a-zA-Z0-9\-_.]. -/
def deviceIdCharOk (c : Char) : Bool :=
  c.isAlpha || c.isDigit || c = '-' || c = '_' || c = '.'

/-- Word list of the first denylist pattern (placeholders), matched
case-insensitively against the whole string. -/
def placeholderWords : List String :=
  ["test", "fake", "dummy", "null", "undefined", "admin", "root", "anonymous", "guest"]

def matchesPlaceholder (s : String) : Bool := placeholderWords.contains (lowerStr s)

/-- Denylist pattern of one character repeated eight or more times: the
backreference is case-sensitive (no i flag on this pattern). -/
def matchesRepeatedChar (s : String) : Bool :=
  match s.data with
  | [] => false
  | c :: rest => decide (7 ≤ rest.length) && rest.all (fun d => d = c)

/-- Alternation heads of the all-same-character denylist pattern. -/
def sameCharAlphabet : List Char := ['0', '1', 'a', 'z', 'x']

/-- Denylist pattern of a nonempty run of a single listed character,
matched case-insensitively. -/
def matchesAllSameListed (s : String) : Bool :=
  match s.data with
  | [] => false
  | c :: rest =>
      sameCharAlphabet.contains c.toLower && rest.all (fun d => d.toLower = c.toLower)

/-- Word list of the common-pattern denylist, matched case-insensitively. -/
def commonPatternWords : List String := ["12345", "abcde", "qwerty", "password", "default"]

def matchesCommonPattern (s : String) : Bool := commonPatternWords.contains (lowerStr s)

/-- Denylist pattern of one to ten decimal digits. -/
def matchesShortDigits (s : String) : Bool :=
  !s.data.isEmpty && s.data.all Char.isDigit && decide (s.length ≤ 10)

/-- suspiciousPatterns.some (pattern => pattern.test (deviceId)) of
validateDeviceId in deviceId.ts. -/
def isSuspiciousDeviceId (s : String) : Bool :=
  matchesPlaceholder s || matchesRepeatedChar s || matchesAllSameListed s ||
  matchesCommonPattern s || matchesShortDigits s

/-- validateDeviceId of src/utils/deviceId.ts: a total boolean check
(the function has no throwing operation): empty or mistyped input is
false, then length bounds 8..128, then the character class, then the
denylist. -/
def validateDeviceId (s : String) : Bool :=
  if s.data.isEmpty then false
  else if decide (s.length < 8) || decide (128 < s.length) then false
  else if !(s.data.all deviceIdCharOk) then false
  else !isSuspiciousDeviceId s

/-! ## Identity validation (DeviceRateLimit.isValidDeviceId) — the rate
limiter carries its own, slightly narrower copy of the validator: no dot
in the character class and a shorter denylist. -/

def rlCharOk (c : Char) : Bool :=
  c.isAlpha || c.isDigit || c = '-' || c = '_'

def rlPlaceholderWords : List String :=
  ["test", "fake", "dummy", "null", "undefined", "admin", "root"]

def rlMatchesPlaceholder (s : String) : Bool := rlPlaceholderWords.contains (lowerStr s)

def rlSameCharAlphabet : List Char := ['0', '1', 'a', 'z']

def rlMatchesAllSameListed (s : String) : Bool :=
  match s.data with
  | [] => false
  | c :: rest =>
      rlSameCharAlphabet.contains c.toLower && rest.all (fun d => d.toLower = c.toLower)

def rlIsSuspicious (s : String) : Bool :=
  rlMatchesPlaceholder s || matchesRepeatedChar s || rlMatchesAllSameListed s

/-- DeviceRateLimit.isValidDeviceId of enhancedValidation.ts. -/
def isValidDeviceId (s : String) : Bool :=
  if s.data.isEmpty then false
  else if decide (s.length < 8) || decide (128 < s.length) then false
  else if !(s.data.all rlCharOk) then false
  else !rlIsSuspicious s

/-! ## SHA-256 (Node createHash("sha256"), used for the fingerprint) -/

/-- UTF-8 encoding of one character. -/
def charUtf8 (c : Char) : List Nat :=
  let n := c.toNat
  if n < 128 then [n]
  else if n < 2048 then [192 + n / 64, 128 + n % 64]
  else if n < 65536 then [224 + n / 4096, 128 + (n / 64) % 64, 128 + n % 64]
  else [240 + n / 262144, 128 + (n / 4096) % 64, 128 + (n / 64) % 64, 128 + n % 64]

/-- UTF-8 bytes of a string, the input encoding of Node's createHash. -/
def utf8Bytes (s : String) : List Nat := (s.data.map charUtf8).flatten

def rotr32 (n x : Nat) : Nat := ((x >>> n) ||| (x <<< (32 - n))) % 4294967296

def smallSigma0 (x : Nat) : Nat := (rotr32 7 x) ^^^ (rotr32 18 x) ^^^ (x >>> 3)

def smallSigma1 (x : Nat) : Nat := (rotr32 17 x) ^^^ (rotr32 19 x) ^^^ (x >>> 10)

def bigSigma0 (x : Nat) : Nat := (rotr32 2 x) ^^^ (rotr32 13 x) ^^^ (rotr32 22 x)

def bigSigma1 (x : Nat) : Nat := (rotr32 6 x) ^^^ (rotr32 11 x) ^^^ (rotr32 25 x)

def chFn (x y z : Nat) : Nat := (x &&& y) ^^^ ((x ^^^ 4294967295) &&& z)

def majFn (x y z : Nat) : Nat := (x &&& y) ^^^ (x &&& z) ^^^ (y &&& z)

/-- The 64 SHA-256 round constants. -/
def kConst : List Nat :=
  [1116352408, 1899447441, 3049323471, 3921009573, 961987163, 1508970993, 2453635748,
   2870763221, 3624381080, 310598401, 607225278, 1426881987, 1925078388, 2162078206,
   2614888103, 3248222580, 3835390401, 4022224774, 264347078, 604807628, 770255983,
   1249150122, 1555081692, 1996064986, 2554220882, 2821834349, 2952996808, 3210313671,
   3336571891, 3584528711, 113926993, 338241895, 666307205, 773529912, 1294757372,
   1396182291, 1695183700, 1986661051, 2177026350, 2456956037, 2730485921, 2820302411,
   3259730800, 3345764771, 3516065817, 3600352804, 4094571909, 275423344, 430227734,
   506948616, 659060556, 883997877, 958139571, 1322822218, 1537002063, 1747873779,
   1955562222, 2024104815, 2227730452, 2361852424, 2428436474, 2756734187, 3204031479,
   3329325298]

/-- Pad the message to a multiple of 64 bytes: 0x80, zeros, then the bit
length as eight big-endian bytes. -/
def padMessage (msg : List Nat) : List Nat :=
  let len := msg.length
  let padLen := (64 - ((len + 9) % 64)) % 64
  let bitLen := len * 8
  msg ++ [128] ++ List.replicate padLen 0 ++
    (List.range 8).map (fun i => (bitLen >>> (8 * (7 - i))) % 256)

/-- Split a byte list into 64-byte chunks. -/
def chunks64 : List Nat → List (List Nat)
  | [] => []
  | a :: as => ((a :: as).take 64) :: chunks64 (as.drop 63)
termination_by l => l.length
decreasing_by simp [List.length_drop]; omega

/-- Big-endian 32-bit word from four bytes. -/
def word4 (bs : List Nat) : Nat :=
  match bs with
  | [a, b, c, d] => ((a * 256 + b) * 256 + c) * 256 + d
  | _ => 0

/-- Extend the sixteen chunk words to the 64-word message schedule. -/
def msgSchedule (init : List Nat) : List Nat := go 48 init
where go : Nat → List Nat → List Nat
  | 0, w => w
  | n + 1, w =>
      let t := (smallSigma1 (w.getD (w.length - 2) 0) + w.getD (w.length - 7) 0 +
                smallSigma0 (w.getD (w.length - 15) 0) + w.getD (w.length - 16) 0) % 4294967296
      go n (w ++ [t])

/-- The eight working words of the compression function. -/
structure Hash8 where
  a : Nat
  b : Nat
  c : Nat
  d : Nat
  e : Nat
  f : Nat
  g : Nat
  h : Nat
deriving Repr, DecidableEq

def compressRound (st : Hash8) (kw : Nat × Nat) : Hash8 :=
  let t1 := (st.h + bigSigma1 st.e + chFn st.e st.f st.g + kw.1 + kw.2) % 4294967296
  let t2 := (bigSigma0 st.a + majFn st.a st.b st.c) % 4294967296
  { a := (t1 + t2) % 4294967296, b := st.a, c := st.b, d := st.c,
    e := (st.d + t1) % 4294967296, f := st.e, g := st.f, h := st.g }

def processChunk (hv : Hash8) (chunk : List Nat) : Hash8 :=
  let w := msgSchedule ((List.range 16).map fun i => word4 ((chunk.drop (4 * i)).take 4))
  let st := (kConst.zip w).foldl compressRound hv
  { a := (hv.a + st.a) % 4294967296, b := (hv.b + st.b) % 4294967296,
    c := (hv.c + st.c) % 4294967296, d := (hv.d + st.d) % 4294967296,
    e := (hv.e + st.e) % 4294967296, f := (hv.f + st.f) % 4294967296,
    g := (hv.g + st.g) % 4294967296, h := (hv.h + st.h) % 4294967296 }

def sha256Init : Hash8 :=
  { a := 1779033703, b := 3144134277, c := 1013904242, d := 2773480762,
    e := 1359893119, f := 2600822924, g := 528734635, h := 1541459225 }

/-- SHA-256 digest of a byte list, as eight 32-bit words.  Checked in
development against Node's createHash on reference inputs. -/
def sha256Words (msg : List Nat) : List Nat :=
  let fin := (chunks64 (padMessage msg)).foldl processChunk sha256Init
  [fin.a, fin.b, fin.c, fin.d, fin.e, fin.f, fin.g, fin.h]

def hexCharList : List Char := "0123456789abcdef".data

def hexDigitChar (n : Nat) : Char := hexCharList.getD n 'f'

def isHexChar (c : Char) : Bool := hexCharList.contains c

/-- Eight hex characters of one 32-bit word, high nibble first. -/
def wordToHex (w : Nat) : List Char :=
  (List.range 8).map (fun i => hexDigitChar ((w >>> (4 * (7 - i))) % 16))

/-- digest("hex") of Node: the 64-character lowercase hex digest. -/
def sha256Hex (msg : List Nat) : String :=
  String.mk (((sha256Words msg).map wordToHex).flatten)

/-! ## Request model and option resolution -/

/-- The request signals the rate limiter reads: headers (req.get is
case-insensitive), req.ip, req.connection.remoteAddress and
req.socket.remoteAddress; none models an undefined field. -/
structure HttpRequest where
  headers : List (String × String)
  ip : Option String
  connectionRemoteAddress : Option String
  socketRemoteAddress : Option String
deriving Repr, DecidableEq

/-- req.get(name): case-insensitive header lookup. -/
def reqGet (req : HttpRequest) (name : String) : Option String :=
  (req.headers.find? (fun p => lowerStr p.1 == lowerStr name)).map (fun p => p.2)

/-- JavaScript truthiness of a string-or-undefined value: undefined and
the empty string are falsy. -/
def jsTruthy : Option String → Bool
  | none => false
  | some s => !s.data.isEmpty

/-- JavaScript a || b on string-or-undefined values. -/
def jsOrElse (a b : Option String) : Option String := if jsTruthy a then a else b

/-- JavaScript a || d with a string default. -/
def jsOrDefault (a : Option String) (d : String) : String :=
  match a with
  | some s => if s.data.isEmpty then d else s
  | none => d

/-- JavaScript options.x || d on an optional boolean option (undefined
and false are falsy). -/
def jsOrBool (a : Option Bool) (d : Bool) : Bool := a.getD false || d

/-- JavaScript n || d on a number (0 is falsy). -/
def jsOrNat (a d : Nat) : Nat := if a = 0 then d else a

/-- The DeviceRateLimitOptions argument of the constructor; none models
an omitted option. -/
structure DeviceRateLimitOptions where
  windowMs : Nat
  maxRequests : Nat
  message : Option String := none
  statusCode : Option Nat := none
  trustProxy : Option Bool := none
  requireDeviceId : Option Bool := none
  fallbackToIp : Option Bool := none
  deviceIdHeaders : Option (List String) := none
deriving Repr

/-- The options after the constructor's defaulting. -/
structure ResolvedOptions where
  windowMs : Nat
  maxRequests : Nat
  message : String
  statusCode : Nat
  trustProxy : Bool
  requireDeviceId : Bool
  fallbackToIp : Bool
  deviceIdHeaders : List String
deriving Repr, DecidableEq

/-- The DeviceRateLimit constructor's option resolution, including its
use of || for every default (so fallbackToIp is options.fallbackToIp ||
true, and an array default applies only to an omitted array since arrays
are always truthy). -/
def resolveOptions (o : DeviceRateLimitOptions) : ResolvedOptions where
  windowMs := jsOrNat o.windowMs (15 * 60 * 1000)
  maxRequests := jsOrNat o.maxRequests 100
  message := jsOrDefault o.message
    "Too many requests from this device, please try again later."
  statusCode := match o.statusCode with
    | some n => jsOrNat n 429
    | none => 429
  trustProxy := jsOrBool o.trustProxy false
  requireDeviceId := jsOrBool o.requireDeviceId false
  fallbackToIp := jsOrBool o.fallbackToIp true
  deviceIdHeaders := o.deviceIdHeaders.getD ["x-device-id", "device-id", "x-client-id"]

/-! ## Key derivation (DeviceRateLimit) -/

/-- DeviceRateLimit.extractDeviceId: first candidate header whose value is
truthy and passes isValidDeviceId. -/
def extractDeviceId (opts : ResolvedOptions) (req : HttpRequest) : Option String :=
  go opts.deviceIdHeaders
where go : List String → Option String
  | [] => none
  | hd :: rest =>
      match reqGet req hd with
      | some v => if !v.data.isEmpty && isValidDeviceId v then some v else go rest
      | none => go rest

/-- DeviceRateLimit.getClientIp: req.ip || connection when trustProxy,
else connection || socket, with "unknown" as the last resort. -/
def getClientIp (opts : ResolvedOptions) (req : HttpRequest) : String :=
  if opts.trustProxy then
    jsOrDefault (jsOrElse req.ip req.connectionRemoteAddress) "unknown"
  else
    jsOrDefault (jsOrElse req.connectionRemoteAddress req.socketRemoteAddress) "unknown"

/-- DeviceRateLimit.generateDeviceFingerprint: sha256 hex digest of the
pipe-joined signals, truncated to its first 16 characters. -/
def generateDeviceFingerprint (opts : ResolvedOptions) (req : HttpRequest) : String :=
  let components := [
    jsOrDefault (reqGet req "user-agent") "",
    jsOrDefault (reqGet req "accept-language") "",
    jsOrDefault (reqGet req "accept-encoding") "",
    jsOrDefault (reqGet req "accept") "",
    getClientIp opts req]
  String.mk ((sha256Hex (utf8Bytes (String.intercalate "|" components))).data.take 16)

/-- DeviceRateLimit.defaultKeyGenerator; the throw on a missing required
device id is modelled as Except.error carrying the thrown message. -/
def defaultKeyGenerator (opts : ResolvedOptions) (req : HttpRequest) :
    Except String String :=
  match extractDeviceId opts req with
  | some deviceId => Except.ok ("device:" ++ deviceId)
  | none =>
      if opts.requireDeviceId then Except.error "Device ID is required but not provided"
      else if opts.fallbackToIp then Except.ok ("ip:" ++ getClientIp opts req)
      else Except.ok ("fingerprint:" ++ generateDeviceFingerprint opts req)

/-! ## The middleware -/

/-- String.prototype.includes, used by the catch block. -/
def leadEq : List Char → List Char → Bool
  | _, [] => true
  | [], _ :: _ => false
  | a :: as, b :: bs => a == b && leadEq as bs

def hasSub (pat : List Char) : List Char → Bool
  | [] => leadEq [] pat
  | c :: as => leadEq (c :: as) pat || hasSub pat as

def strIncludes (s pat : String) : Bool := hasSub pat.data s.data

/-- The X-RateLimit response headers set on every decision. -/
structure RespHeaders where
  limit : Nat
  remaining : Int
  reset : Nat
  window : Nat
deriving Repr, DecidableEq

/-- The observable outcome of one middleware run: next() with quota info,
the 429 denial body, the 400 missing-device-id body, or the fail-open
next() of the catch block. -/
inductive MwOutcome where
  | next (remaining : Int) (headers : RespHeaders)
  | limited (status : Nat) (message : String) (limit : Nat) (remaining : Nat)
      (resetTime : Nat) (retryAfter : Nat) (headers : RespHeaders)
  | badRequest (message : String) (requiredHeaders : List String)
  | failOpenNext
deriving Repr, DecidableEq

def MwOutcome.isAllowed : MwOutcome → Bool
  | .next _ _ => true
  | .failOpenNext => true
  | _ => false

def MwOutcome.remainingVal : MwOutcome → Option Int
  | .next r _ => some r
  | _ => none

def MwOutcome.retryAfterVal : MwOutcome → Option Nat
  | .limited _ _ _ _ _ ra _ => some ra
  | _ => none

/-- The remaining quota the run reports (next's header value, or the 429
body's literal 0). -/
def MwOutcome.reportedRemaining : MwOutcome → Int
  | .next r _ => r
  | .limited _ _ _ r _ _ _ => (r : Int)
  | _ => 0

/-- The body of DeviceRateLimit.middleware after key generation, plus its
catch block: an error whose message includes "Device ID is required" gets
the 400 response naming the accepted headers; any other error falls open
to next().  On a key, increment the store, compute remaining =
max(0, maxRequests - count), set the headers, and deny iff
count > maxRequests with retryAfter = ceil((resetTime - now) / 1000). -/
def runMiddleware (opts : ResolvedOptions) (keyRes : Except String String)
    (now : Nat) (s : Store) : MwOutcome × Store :=
  match keyRes with
  | Except.error e =>
      if strIncludes e "Device ID is required" then
        (MwOutcome.badRequest
          "Device ID is required. Please include a valid device ID in the request headers."
          opts.deviceIdHeaders, s)
      else (MwOutcome.failOpenNext, s)
  | Except.ok key =>
      let res := storeIncrement opts.windowMs now key s
      let entry := res.1
      let remaining : Int := max 0 ((opts.maxRequests : Int) - (entry.count : Int))
      let headers : RespHeaders :=
        { limit := opts.maxRequests, remaining := remaining,
          reset := (entry.resetTime + 999) / 1000, window := opts.windowMs }
      if opts.maxRequests < entry.count then
        (MwOutcome.limited opts.statusCode opts.message opts.maxRequests 0 entry.resetTime
          ((entry.resetTime - now + 999) / 1000) headers, res.2)
      else
        (MwOutcome.next remaining headers, res.2)

/-- One full middleware run with the default key generator. -/
def deviceRateLimitMiddleware (opts : ResolvedOptions) (req : HttpRequest)
    (now : Nat) (s : Store) : MwOutcome × Store :=
  runMiddleware opts (defaultKeyGenerator opts req) now s

/-! ## Administrative interface -/

/-- DeviceRateLimit.resetDevice: derives device:<id> and resets it; the
method itself performs no validation. -/
def resetDevice (deviceId : String) (s : Store) : Store :=
  storeReset ("device:" ++ deviceId) s

/-- The status snapshot of DeviceRateLimit.getDeviceStatus. -/
structure DeviceStatus where
  count : Nat
  remaining : Int
  resetTime : Nat
deriving Repr, DecidableEq

/-- DeviceRateLimit.getDeviceStatus: full-quota snapshot when no live
entry exists, else the entry's count, clamped remaining and resetTime. -/
def getDeviceStatus (opts : ResolvedOptions) (deviceId : String) (now : Nat)
    (s : Store) : DeviceStatus × Store :=
  let g := storeGet now ("device:" ++ deviceId) s
  match g.1 with
  | none =>
      ({ count := 0, remaining := (opts.maxRequests : Int),
         resetTime := now + opts.windowMs }, g.2)
  | some e =>
      ({ count := e.count,
         remaining := max 0 ((opts.maxRequests : Int) - (e.count : Int)),
         resetTime := e.resetTime }, g.2)

/-- Observable result of the admin reset endpoint (stock.controller.ts,
resetDeviceRateLimit): 403, 400 on invalid id, or the 200
"reset requested" success body. -/
inductive ResetEndpointResult where
  | forbidden
  | invalidDeviceId
  | resetRequested (deviceId : String)
deriving Repr, DecidableEq

/-- The admin endpoint resetDeviceRateLimit: role check, then
validateDeviceId; on success it only logs the request and answers 200 —
the source never calls the store (its comment reads "This would need to be
implemented in the rate limiter instance"), so the store is returned
untouched on every path. -/
def resetDeviceRateLimitEndpoint (userRole : Option String) (deviceId : String)
    (s : Store) : ResetEndpointResult × Store :=
  match userRole with
  | none => (ResetEndpointResult.forbidden, s)
  | some role =>
      if role ≠ "admin" ∧ role ≠ "owner" then (ResetEndpointResult.forbidden, s)
      else if deviceId.data.isEmpty ∨ validateDeviceId deviceId = false then
        (ResetEndpointResult.invalidDeviceId, s)
      else (ResetEndpointResult.resetRequested deviceId, s)

/-- Repeated store increments on one key at the given sequence of times,
modelling sequential callers (and, since the single-threaded runtime runs
each synchronous increment to completion, any interleaving of concurrent
callers as well). -/
def iterateIncrements (windowMs : Nat) (k : String) : List Nat → Store → Store
  | [], s => s
  | t :: ts, s => iterateIncrements windowMs k ts (storeIncrement windowMs t k s).2

/-! ## Store lemmas -/

theorem lookup_erase_self (k : String) (s : Store) : lookupKey k (eraseKey k s) = none := by
  induction s with
  | nil => rfl
  | cons p rest ih =>
      obtain ⟨k₂, e⟩ := p
      by_cases h : k₂ = k
      · simpa [eraseKey, h] using ih
      · simpa [eraseKey, lookupKey, h] using ih

theorem lookup_erase_ne {k q : String} (h : q ≠ k) (s : Store) :
    lookupKey k (eraseKey q s) = lookupKey k s := by
  induction s with
  | nil => rfl
  | cons p rest ih =>
      obtain ⟨k₂, e⟩ := p
      by_cases h₂ : k₂ = q
      · subst h₂
        simpa [eraseKey, lookupKey, h] using ih
      · by_cases h₃ : k₂ = k
        · subst h₃
          simp [eraseKey, lookupKey, h₂, ih]
        · simp [eraseKey, lookupKey, h₂, h₃, ih]

theorem lookup_set_self (k : String) (e : RateLimitEntry) (s : Store) :
    lookupKey k (setKey k e s) = some e := by
  simp [setKey, lookupKey]

theorem lookup_set_ne {k q : String} (h : q ≠ k) (e : RateLimitEntry) (s : Store) :
    lookupKey k (setKey q e s) = lookupKey k s := by
  simp [setKey, lookupKey, h, lookup_erase_ne h]

theorem storeGet_of_lookup_none {now : Nat} {k : String} {s : Store}
    (h : lookupKey k s = none) : storeGet now k s = (none, s) := by
  simp [storeGet, h]

theorem storeGet_live {now : Nat} {k : String} {s : Store} {e : RateLimitEntry}
    (h : lookupKey k s = some e) (hle : now ≤ e.resetTime) :
    storeGet now k s = (some e, s) := by
  simp [storeGet, h, Nat.not_lt.mpr hle]

theorem storeGet_expired {now : Nat} {k : String} {s : Store} {e : RateLimitEntry}
    (h : lookupKey k s = some e) (hlt : e.resetTime < now) :
    storeGet now k s = (none, eraseKey k s) := by
  simp [storeGet, h, hlt]

theorem storeIncrement_live {w now : Nat} {k : String} {s : Store} {e : RateLimitEntry}
    (h : lookupKey k s = some e) (hle : now ≤ e.resetTime) :
    storeIncrement w now k s =
      ({ e with count := e.count + 1 }, setKey k { e with count := e.count + 1 } s) := by
  simp [storeIncrement, storeGet_live h hle]

theorem storeIncrement_of_lookup_none {w now : Nat} {k : String} {s : Store}
    (h : lookupKey k s = none) :
    storeIncrement w now k s =
      ({ count := 1, resetTime := now + w, firstRequest := now },
       setKey k { count := 1, resetTime := now + w, firstRequest := now } s) := by
  simp [storeIncrement, storeGet_of_lookup_none h]

theorem storeIncrement_expired {w now : Nat} {k : String} {s : Store} {e : RateLimitEntry}
    (h : lookupKey k s = some e) (hlt : e.resetTime < now) :
    storeIncrement w now k s =
      ({ count := 1, resetTime := now + w, firstRequest := now },
       setKey k { count := 1, resetTime := now + w, firstRequest := now } (eraseKey k s)) := by
  simp [storeIncrement, storeGet_expired h hlt]

theorem storeIncrement_frame {w now : Nat} {k q : String} (h : q ≠ k) (s : Store) :
    lookupKey k (storeIncrement w now q s).2 = lookupKey k s := by
  rcases hq : lookupKey q s with _ | e
  · rw [storeIncrement_of_lookup_none hq]
    simp [lookup_set_ne h]
  · by_cases hexp : e.resetTime < now
    · rw [storeIncrement_expired hq hexp]
      simp [lookup_set_ne h, lookup_erase_ne h]
    · rw [storeIncrement_live hq (Nat.not_lt.mp hexp)]
      simp [lookup_set_ne h]

theorem iterateIncrements_count (w : Nat) (k : String) (ts : List Nat) :
    ∀ (s : Store) (e : RateLimitEntry), lookupKey k s = some e →
      (∀ t ∈ ts, t ≤ e.resetTime) →
      lookupKey k (iterateIncrements w k ts s) =
        some { e with count := e.count + ts.length } := by
  induction ts with
  | nil =>
      intro s e hl _
      simpa using hl
  | cons t ts ih =>
      intro s e hl hb
      have ht : t ≤ e.resetTime := hb t (by simp)
      rw [iterateIncrements, storeIncrement_live hl ht]
      have := ih (setKey k { e with count := e.count + 1 } s) { e with count := e.count + 1 }
        (lookup_set_self k _ s) (by intro t₂ ht₂; exact hb t₂ (by simp [ht₂]))
      rw [this]
      simp only [List.length_cons]
      congr 2
      omega

theorem lookup_none_of_not_mem {k : String} {s : Store}
    (h : k ∉ s.map Prod.fst) : lookupKey k s = none := by
  induction s with
  | nil => rfl
  | cons p rest ih =>
      obtain ⟨k₂, e⟩ := p
      simp only [List.map_cons, List.mem_cons] at h
      push_neg at h
      have hne : k₂ ≠ k := fun hc => h.1 hc.symm
      simpa [lookupKey, hne] using ih h.2

theorem cleanup_lookup_of_lookup_none {now : Nat} {k : String} {s : Store}
    (h : lookupKey k s = none) : lookupKey k (storeCleanup now s) = none := by
  induction s with
  | nil => rfl
  | cons p rest ih =>
      obtain ⟨k₂, e⟩ := p
      by_cases hk : k₂ = k
      · simp [lookupKey, hk] at h
      · simp only [lookupKey, hk, if_false] at h
        by_cases hp : e.resetTime < now
        · simpa [storeCleanup, hp] using ih h
        · simpa [storeCleanup, lookupKey, hp, hk] using ih h

theorem cleanup_expired {now : Nat} {k : String} {s : Store} {e : RateLimitEntry}
    (hwf : wfStore s) (h : lookupKey k s = some e) (hlt : e.resetTime < now) :
    lookupKey k (storeCleanup now s) = none := by
  induction s with
  | nil => simp [lookupKey] at h
  | cons p rest ih =>
      obtain ⟨k₂, e₂⟩ := p
      have hwf₂ : (k₂ :: rest.map Prod.fst).Nodup := hwf
      obtain ⟨hhead, htail⟩ := List.nodup_cons.mp hwf₂
      by_cases hk : k₂ = k
      · have he : e₂ = e := by simpa [lookupKey, hk] using h
        subst he hk
        have hrest : lookupKey k₂ rest = none := lookup_none_of_not_mem hhead
        simpa [storeCleanup, List.filter_cons, hlt] using
          cleanup_lookup_of_lookup_none hrest
      · have h₂ : lookupKey k rest = some e := by simpa [lookupKey, hk] using h
        by_cases hp : e₂.resetTime < now
        · simpa [storeCleanup, List.filter_cons, hp] using ih htail h₂
        · simpa [storeCleanup, List.filter_cons, lookupKey, hp, hk] using ih htail h₂

theorem storeGet_fst_eq (now : Nat) (k : String) {s₁ s₂ : Store}
    (h : lookupKey k s₁ = lookupKey k s₂) :
    (storeGet now k s₁).1 = (storeGet now k s₂).1 := by
  unfold storeGet
  rw [h]
  rcases lookupKey k s₂ with _ | e
  · rfl
  · by_cases hexp : e.resetTime < now <;> simp [hexp]

/-! ## Fingerprint digest lemmas -/

theorem wordToHex_length (w : Nat) : (wordToHex w).length = 8 := by
  simp [wordToHex]

theorem sha256Words_length (msg : List Nat) : (sha256Words msg).length = 8 := rfl

theorem sha256Hex_length (msg : List Nat) : (sha256Hex msg).data.length = 64 := by
  have h8 : ∀ L : List Nat, ((L.map wordToHex).flatten).length = 8 * L.length := by
    intro L
    induction L with
    | nil => simp
    | cons w ws ih => simp [ih, wordToHex_length]; omega
  show ((sha256Words msg).map wordToHex).flatten.length = 64
  rw [h8, sha256Words_length]

theorem hexDigitChar_isHex (n : Nat) : isHexChar (hexDigitChar n) = true := by
  by_cases h : n < 16
  · exact (by decide : ∀ m, m < 16 → isHexChar (hexDigitChar m) = true) n h
  · have hd : hexDigitChar n = 'f' := by
      unfold hexDigitChar
      exact List.getD_eq_default _ _ (Nat.le_of_not_lt h)
    rw [hd]; decide

theorem sha256Hex_all_hex (msg : List Nat) :
    (sha256Hex msg).data.all isHexChar = true := by
  show (((sha256Words msg).map wordToHex).flatten).all isHexChar = true
  rw [List.all_eq_true]
  intro c hc
  rw [List.mem_flatten] at hc
  obtain ⟨l, hl, hcl⟩ := hc
  rw [List.mem_map] at hl
  obtain ⟨w, -, rfl⟩ := hl
  simp only [wordToHex, List.mem_map] at hcl
  obtain ⟨i, -, rfl⟩ := hcl
  exact hexDigitChar_isHex _

theorem fingerprint_take16_spec (msg : List Nat) :
    (String.mk ((sha256Hex msg).data.take 16)).length = 16 ∧
    (String.mk ((sha256Hex msg).data.take 16)).data.all isHexChar = true := by
  constructor
  · show ((sha256Hex msg).data.take 16).length = 16
    rw [List.length_take, sha256Hex_length]
    decide
  · show ((sha256Hex msg).data.take 16).all isHexChar = true
    rw [List.all_eq_true]
    intro c hc
    have hmem : c ∈ (sha256Hex msg).data := List.take_subset _ _ hc
    have hall := sha256Hex_all_hex msg
    rw [List.all_eq_true] at hall
    exact hall c hmem

theorem generateDeviceFingerprint_spec (opts : ResolvedOptions) (req : HttpRequest) :
    (generateDeviceFingerprint opts req).length = 16 ∧
    (generateDeviceFingerprint opts req).data.all isHexChar = true :=
  fingerprint_take16_spec _

/-! ## Middleware lemmas -/

theorem runMiddleware_error_fail_open {opts : ResolvedOptions} {now : Nat} {s : Store}
    {e : String} (h : strIncludes e "Device ID is required" = false) :
    runMiddleware opts (Except.error e) now s = (MwOutcome.failOpenNext, s) := by
  simp [runMiddleware, h]

theorem runMiddleware_error_required {opts : ResolvedOptions} {now : Nat} {s : Store} :
    runMiddleware opts (Except.error "Device ID is required but not provided") now s =
      (MwOutcome.badRequest
        "Device ID is required. Please include a valid device ID in the request headers."
        opts.deviceIdHeaders, s) := by
  have hinc : strIncludes "Device ID is required but not provided" "Device ID is required"
      = true := by decide
  simp [runMiddleware, hinc]

theorem runMiddleware_ok_limited {opts : ResolvedOptions} {key : String} {now : Nat}
    {s : Store} (h : opts.maxRequests < (storeIncrement opts.windowMs now key s).1.count) :
    runMiddleware opts (Except.ok key) now s =
      (MwOutcome.limited opts.statusCode opts.message opts.maxRequests 0
        (storeIncrement opts.windowMs now key s).1.resetTime
        (((storeIncrement opts.windowMs now key s).1.resetTime - now + 999) / 1000)
        { limit := opts.maxRequests,
          remaining := max 0 ((opts.maxRequests : Int) -
            ((storeIncrement opts.windowMs now key s).1.count : Int)),
          reset := ((storeIncrement opts.windowMs now key s).1.resetTime + 999) / 1000,
          window := opts.windowMs },
       (storeIncrement opts.windowMs now key s).2) := by
  simp [runMiddleware, h]

theorem runMiddleware_ok_next {opts : ResolvedOptions} {key : String} {now : Nat}
    {s : Store} (h : (storeIncrement opts.windowMs now key s).1.count ≤ opts.maxRequests) :
    runMiddleware opts (Except.ok key) now s =
      (MwOutcome.next
        (max 0 ((opts.maxRequests : Int) -
          ((storeIncrement opts.windowMs now key s).1.count : Int)))
        { limit := opts.maxRequests,
          remaining := max 0 ((opts.maxRequests : Int) -
            ((storeIncrement opts.windowMs now key s).1.count : Int)),
          reset := ((storeIncrement opts.windowMs now key s).1.resetTime + 999) / 1000,
          window := opts.windowMs },
       (storeIncrement opts.windowMs now key s).2) := by
  simp [runMiddleware, Nat.not_lt.mpr h]

/-! ## Concrete configurations and runs used by the claims -/

/-- The spec scenario configuration: maxRequests 3, windowMs 1000. -/
def scenarioOpts : ResolvedOptions := resolveOptions { windowMs := 1000, maxRequests := 3 }

/-- A request from device "abcdefgh12345678" via the X-Device-ID header. -/
def scenarioReq : HttpRequest :=
  { headers := [("x-device-id", "abcdefgh12345678")], ip := none,
    connectionRemoteAddress := none, socketRemoteAddress := none }

/-- One middleware run of the scenario device at the given time. -/
def scenarioStep (now : Nat) (s : Store) : MwOutcome × Store :=
  deviceRateLimitMiddleware scenarioOpts scenarioReq now s

def scenRun1 : MwOutcome × Store := scenarioStep 0 []

def scenRun2 : MwOutcome × Store := scenarioStep 1 scenRun1.2

def scenRun3 : MwOutcome × Store := scenarioStep 2 scenRun2.2

def scenRun4 : MwOutcome × Store := scenarioStep 3 scenRun3.2

def scenRun5 : MwOutcome × Store := scenarioStep 1001 scenRun4.2

/-- Options with fallbackToIp explicitly configured false. -/
def c2OptsIn : DeviceRateLimitOptions :=
  { windowMs := 1000, maxRequests := 3, fallbackToIp := some false }

/-- A request carrying no headers and no address information. -/
def noHeaderReq : HttpRequest :=
  { headers := [], ip := none, connectionRemoteAddress := none,
    socketRemoteAddress := none }

/-- Options with requireDeviceId configured true. -/
def c4OptsIn : DeviceRateLimitOptions :=
  { windowMs := 1000, maxRequests := 3, requireDeviceId := some true }

/-! ## Claims -/

/-- C1: with maxRequests 3 and windowMs 1000 for a single device, requests
1–3 are allowed with remaining 2, 1, 0; request 4 in the same window is
denied with a positive retryAfterSeconds; a request strictly after the
window end starts a fresh window, allowed with remaining 2.  In general
the decision after the increment reports remaining =
max(0, maxRequests - count) and allows iff count ≤ maxRequests. -/
theorem c1_admission_decision :
    (∀ (opts : ResolvedOptions) (key : String) (now : Nat) (s : Store),
        ((runMiddleware opts (Except.ok key) now s).1.isAllowed = true ↔
          (storeIncrement opts.windowMs now key s).1.count ≤ opts.maxRequests) ∧
        (runMiddleware opts (Except.ok key) now s).1.reportedRemaining =
          max 0 ((opts.maxRequests : Int) -
            ((storeIncrement opts.windowMs now key s).1.count : Int))) ∧
    (scenRun1.1.isAllowed = true ∧ scenRun1.1.remainingVal = some 2) ∧
    (scenRun2.1.isAllowed = true ∧ scenRun2.1.remainingVal = some 1) ∧
    (scenRun3.1.isAllowed = true ∧ scenRun3.1.remainingVal = some 0) ∧
    (scenRun4.1.isAllowed = false ∧ 0 < scenRun4.1.retryAfterVal.getD 0) ∧
    (scenRun5.1.isAllowed = true ∧ scenRun5.1.remainingVal = some 2 ∧
      lookupKey "device:abcdefgh12345678" scenRun5.2 =
        some { count := 1, resetTime := 2001, firstRequest := 1001 }) := by
  refine ⟨fun opts key now s => ?_, by decide, by decide, by decide, by decide, by decide⟩
  by_cases h : opts.maxRequests < (storeIncrement opts.windowMs now key s).1.count
  · rw [runMiddleware_ok_limited h]
    refine ⟨by simp [MwOutcome.isAllowed]; omega, ?_⟩
    simp only [MwOutcome.reportedRemaining]
    omega
  · rw [runMiddleware_ok_next (Nat.not_lt.mp h)]
    exact ⟨by simp [MwOutcome.isAllowed, Nat.not_lt.mp h], rfl⟩

/-- C2 counterexample: with fallbackToIp explicitly configured false and a
request carrying no valid device id, the constructor's
options.fallbackToIp || true coerces the flag to true, so the derived key
is ip:unknown and not a fingerprint key, contradicting the claimed
fallbackToIp=false → fingerprint:<24-hex-char> behaviour. -/
theorem c2_counterexample :
    (resolveOptions c2OptsIn).fallbackToIp = true ∧
    defaultKeyGenerator (resolveOptions c2OptsIn) noHeaderReq = Except.ok "ip:unknown" ∧
    ((defaultKeyGenerator (resolveOptions c2OptsIn) noHeaderReq).toOption.getD "").take 12
      ≠ "fingerprint:" := by
  refine ⟨rfl, rfl, by decide⟩

/-- C2 amended: a valid device-id header yields device:<id>; the
constructor coerces fallbackToIp to true under every configuration, so
whenever no valid id is present and requireDeviceId resolves false the key
is ip:<clientAddress> — also when fallbackToIp was configured false, and
the fingerprint branch is unreachable through the constructor; the
fingerprint function itself is a pure function of the request signals
(hence deterministic) returning a 16-hex-character hash. -/
theorem c2_amended_key_precedence :
    (∀ (o : DeviceRateLimitOptions) (req : HttpRequest) (id : String),
        extractDeviceId (resolveOptions o) req = some id →
        defaultKeyGenerator (resolveOptions o) req = Except.ok ("device:" ++ id)) ∧
    (∀ o : DeviceRateLimitOptions, (resolveOptions o).fallbackToIp = true) ∧
    (∀ (o : DeviceRateLimitOptions) (req : HttpRequest),
        extractDeviceId (resolveOptions o) req = none →
        (resolveOptions o).requireDeviceId = false →
        defaultKeyGenerator (resolveOptions o) req =
          Except.ok ("ip:" ++ getClientIp (resolveOptions o) req)) ∧
    (∀ (opts : ResolvedOptions) (req : HttpRequest),
        (generateDeviceFingerprint opts req).length = 16 ∧
        (generateDeviceFingerprint opts req).data.all isHexChar = true) := by
  have hfb : ∀ o : DeviceRateLimitOptions, (resolveOptions o).fallbackToIp = true := by
    intro o
    simp [resolveOptions, jsOrBool]
  refine ⟨?_, hfb, ?_, fun opts req => generateDeviceFingerprint_spec opts req⟩
  · intro o req id h
    simp [defaultKeyGenerator, h]
  · intro o req h1 h2
    simp [defaultKeyGenerator, h1, h2, hfb o]

/-- C2 witness: the amended ip-fallback clause applied to the concrete
fallbackToIp=false configuration and the empty request. -/
theorem c2_amended_witness :
    defaultKeyGenerator (resolveOptions c2OptsIn) noHeaderReq =
      Except.ok ("ip:" ++ getClientIp (resolveOptions c2OptsIn) noHeaderReq) :=
  c2_amended_key_precedence.2.2.1 c2OptsIn noHeaderReq (by decide) (by decide)

/-- C3: the admin reset operation.  The endpoint resetDeviceRateLimit
validates the device id with validateDeviceId and reports invalid input
with a 400 result, but on a valid id it only logs and answers success:
the store is returned untouched, so after a denial the next request is
still denied.  Had the endpoint called DeviceRateLimit.resetDevice, the
next request would be allowed with remaining = limit - 1 = 2, as the
claim (and the spec) state. -/
theorem c3_reset_endpoint_never_resets :
    scenRun4.1.isAllowed = false ∧
    validateDeviceId "abcdefgh12345678" = true ∧
    resetDeviceRateLimitEndpoint (some "admin") "abcdefgh12345678" scenRun4.2 =
      (ResetEndpointResult.resetRequested "abcdefgh12345678", scenRun4.2) ∧
    (scenarioStep 4 scenRun4.2).1.isAllowed = false ∧
    (scenarioStep 4 (resetDevice "abcdefgh12345678" scenRun4.2)).1.isAllowed = true ∧
    (scenarioStep 4 (resetDevice "abcdefgh12345678" scenRun4.2)).1.remainingVal = some 2 ∧
    resetDeviceRateLimitEndpoint (some "admin") "test" scenRun4.2 =
      (ResetEndpointResult.invalidDeviceId, scenRun4.2) := by
  decide

/-- C4: with requireDeviceId configured true and no candidate header
passing validation, the run ends in the 400 bad-request outcome naming
the accepted headers, the store is untouched (no silent fallback to an
ip or fingerprint key), and the middleware returns normally (not fatal). -/
theorem c4_required_device_id :
    ∀ (o : DeviceRateLimitOptions) (req : HttpRequest) (now : Nat) (s : Store),
      extractDeviceId (resolveOptions o) req = none →
      o.requireDeviceId = some true →
      deviceRateLimitMiddleware (resolveOptions o) req now s =
        (MwOutcome.badRequest
          "Device ID is required. Please include a valid device ID in the request headers."
          (resolveOptions o).deviceIdHeaders, s) := by
  intro o req now s h1 h2
  have hreq : (resolveOptions o).requireDeviceId = true := by
    simp [resolveOptions, jsOrBool, h2]
  have hkey : defaultKeyGenerator (resolveOptions o) req =
      Except.error "Device ID is required but not provided" := by
    simp [defaultKeyGenerator, h1, hreq]
  rw [deviceRateLimitMiddleware, hkey, runMiddleware_error_required]

/-- C4 witness: the concrete requireDeviceId=true configuration with the
header-less request. -/
theorem c4_witness :
    deviceRateLimitMiddleware (resolveOptions c4OptsIn) noHeaderReq 0 [] =
      (MwOutcome.badRequest
        "Device ID is required. Please include a valid device ID in the request headers."
        (resolveOptions c4OptsIn).deviceIdHeaders, []) :=
  c4_required_device_id c4OptsIn noHeaderReq 0 [] (by decide) rfl

/-- C5: the catch block of the middleware treats every error whose message
is not the required-device-id message as fail-open — the request proceeds
to next() (counted as allowed) and the store is untouched — while the
required-device-id error (the only error the middleware body itself
raises) is returned to the caller as the 400 outcome naming the accepted
headers. -/
theorem c5_fail_open :
    (∀ (opts : ResolvedOptions) (now : Nat) (s : Store) (e : String),
        strIncludes e "Device ID is required" = false →
        runMiddleware opts (Except.error e) now s = (MwOutcome.failOpenNext, s)) ∧
    MwOutcome.failOpenNext.isAllowed = true ∧
    (∀ (opts : ResolvedOptions) (now : Nat) (s : Store),
        runMiddleware opts (Except.error "Device ID is required but not provided") now s =
          (MwOutcome.badRequest
            "Device ID is required. Please include a valid device ID in the request headers."
            opts.deviceIdHeaders, s)) :=
  ⟨fun _ _ _ _ h => runMiddleware_error_fail_open h, rfl,
   fun _ _ _ => runMiddleware_error_required⟩

/-- C5 witness: a concrete unexpected store fault falls open. -/
theorem c5_witness :
    runMiddleware scenarioOpts (Except.error "unexpected store fault") 0 [] =
      (MwOutcome.failOpenNext, []) :=
  c5_fail_open.1 scenarioOpts 0 [] "unexpected store fault" (by decide)

/-- C6: an entry whose resetTime has strictly passed is observably absent:
get returns none (lazy path), and after the periodic sweep the key is
gone from any well-keyed store; an increment on such an expired key never
revives the old entry but replaces it with a fresh one of count 1,
windowStart now and windowEnd now + windowMs. -/
theorem c6_expiry_absent_and_no_revival :
    (∀ (now : Nat) (k : String) (s : Store) (e : RateLimitEntry),
        lookupKey k s = some e → e.resetTime < now →
        (storeGet now k s).1 = none) ∧
    (∀ (now : Nat) (k : String) (s : Store) (e : RateLimitEntry),
        wfStore s → lookupKey k s = some e → e.resetTime < now →
        lookupKey k (storeCleanup now s) = none) ∧
    (∀ (w now : Nat) (k : String) (s : Store) (e : RateLimitEntry),
        lookupKey k s = some e → e.resetTime < now →
        storeIncrement w now k s =
          ({ count := 1, resetTime := now + w, firstRequest := now },
           setKey k { count := 1, resetTime := now + w, firstRequest := now }
             (eraseKey k s))) := by
  refine ⟨?_, ?_, ?_⟩
  · intro now k s e h hlt
    rw [storeGet_expired h hlt]
  · intro now k s e hwf h hlt
    exact cleanup_expired hwf h hlt
  · intro w now k s e h hlt
    exact storeIncrement_expired h hlt

/-- C6 witness: a concrete expired entry is replaced, not revived. -/
theorem c6_witness :
    storeIncrement 1000 6 "device:abcdefgh12345678"
        [("device:abcdefgh12345678", { count := 2, resetTime := 5, firstRequest := 0 })] =
      ({ count := 1, resetTime := 1006, firstRequest := 6 },
       setKey "device:abcdefgh12345678" { count := 1, resetTime := 1006, firstRequest := 6 }
         (eraseKey "device:abcdefgh12345678"
           [("device:abcdefgh12345678", { count := 2, resetTime := 5, firstRequest := 0 })])) :=
  c6_expiry_absent_and_no_revival.2.2 1000 6 "device:abcdefgh12345678"
    [("device:abcdefgh12345678", { count := 2, resetTime := 5, firstRequest := 0 })]
    { count := 2, resetTime := 5, firstRequest := 0 } (by decide) (by decide)

/-- C7: validateDeviceId accepts exactly the strings of length 8–128 over
its character class (letters, digits, hyphen, underscore, dot) matching
none of the denylist patterns, it is a total function (never throws), and
it settles the spec's example inputs as listed. -/
theorem c7_validate_device_id :
    (∀ s : String, validateDeviceId s = true ↔
        (8 ≤ s.length ∧ s.length ≤ 128 ∧ s.data.all deviceIdCharOk = true ∧
         isSuspiciousDeviceId s = false)) ∧
    validateDeviceId "abcdefgh" = true ∧
    validateDeviceId "device_12345_mobile" = true ∧
    validateDeviceId "test" = false ∧
    validateDeviceId "11111111" = false ∧
    validateDeviceId "aaaaaaaa" = false ∧
    validateDeviceId (String.mk (List.replicate 129 'a')) = false := by
  refine ⟨?_, by decide, by decide, by decide, by decide, by decide, by decide⟩
  intro s
  unfold validateDeviceId
  split_ifs with h1 h2 h3
  · simp only [Bool.false_eq_true, false_iff]
    rintro ⟨h8, -, -, -⟩
    rw [List.isEmpty_iff] at h1
    rw [show s.length = s.data.length from rfl, h1] at h8
    simp at h8
  · simp only [Bool.false_eq_true, false_iff]
    rintro ⟨h8, h128, -, -⟩
    simp only [Bool.or_eq_true, decide_eq_true_eq] at h2
    omega
  · simp only [Bool.false_eq_true, false_iff]
    rintro ⟨-, -, hall, -⟩
    rw [Bool.not_eq_true'] at h3
    rw [hall] at h3
    cases h3
  · simp only [Bool.or_eq_true, decide_eq_true_eq, not_or] at h2
    rw [Bool.not_eq_true'] at h3
    rw [Bool.not_eq_false] at h3
    constructor
    · intro hsusp
      rw [Bool.not_eq_true'] at hsusp
      exact ⟨by omega, by omega, h3, hsusp⟩
    · rintro ⟨-, -, -, hsusp⟩
      rw [Bool.not_eq_true']
      exact hsusp

/-- C8: after N sequential increments on one key within one window the
count is N, and increments on one key leave every other key's entry
untouched, so any interleaving of callers — each increment running
atomically on the single-threaded runtime — yields a final count equal to
the number of callers; the 100-caller burst is checked concretely. -/
theorem c8_no_lost_updates :
    (∀ (w : Nat) (k : String) (t₀ : Nat) (ts : List Nat) (s : Store),
        lookupKey k s = none → (∀ t ∈ ts, t ≤ t₀ + w) →
        lookupKey k (iterateIncrements w k (t₀ :: ts) s) =
          some { count := ts.length + 1, resetTime := t₀ + w, firstRequest := t₀ }) ∧
    (∀ (w now : Nat) (k q : String) (s : Store), q ≠ k →
        lookupKey k (storeIncrement w now q s).2 = lookupKey k s) ∧
    lookupKey "device:abcdefgh12345678"
        (iterateIncrements 60000 "device:abcdefgh12345678" (List.replicate 100 0) []) =
      some { count := 100, resetTime := 60000, firstRequest := 0 } := by
  refine ⟨?_, fun w now k q s h => storeIncrement_frame h s, by decide⟩
  intro w k t₀ ts s h0 hb
  rw [iterateIncrements, storeIncrement_of_lookup_none h0]
  have hrun := iterateIncrements_count w k ts
    (setKey k { count := 1, resetTime := t₀ + w, firstRequest := t₀ } s)
    { count := 1, resetTime := t₀ + w, firstRequest := t₀ }
    (lookup_set_self k _ s) (by intro t ht; exact hb t ht)
  rw [hrun]
  simp only [Option.some.injEq, RateLimitEntry.mk.injEq]
  refine ⟨by omega, trivial, trivial⟩

/-- C8 witness: three sequential increments from an absent key give
count 3. -/
theorem c8_witness :
    lookupKey "device:abcdefgh12345678"
        (iterateIncrements 1000 "device:abcdefgh12345678" (0 :: [1, 2]) []) =
      some { count := 3, resetTime := 1000, firstRequest := 0 } :=
  c8_no_lost_updates.1 1000 "device:abcdefgh12345678" 0 [1, 2] [] rfl (by decide)

/-- C9: getDeviceStatus is total (never fails): with no binding, or an
expired one, it answers the full-quota snapshot count 0, remaining
maxRequests, resetTime now + windowMs; on a live entry it answers the
entry's count, max(0, maxRequests - count) and the entry's resetTime; and
it is observably read-only — every get observes the same value before and
after the call. -/
theorem c9_get_device_status :
    (∀ (opts : ResolvedOptions) (d : String) (now : Nat) (s : Store),
        lookupKey ("device:" ++ d) s = none →
        getDeviceStatus opts d now s =
          ({ count := 0, remaining := (opts.maxRequests : Int),
             resetTime := now + opts.windowMs }, s)) ∧
    (∀ (opts : ResolvedOptions) (d : String) (now : Nat) (s : Store) (e : RateLimitEntry),
        lookupKey ("device:" ++ d) s = some e → e.resetTime < now →
        (getDeviceStatus opts d now s).1 =
          { count := 0, remaining := (opts.maxRequests : Int),
            resetTime := now + opts.windowMs }) ∧
    (∀ (opts : ResolvedOptions) (d : String) (now : Nat) (s : Store) (e : RateLimitEntry),
        lookupKey ("device:" ++ d) s = some e → now ≤ e.resetTime →
        (getDeviceStatus opts d now s).1 =
          { count := e.count,
            remaining := max 0 ((opts.maxRequests : Int) - (e.count : Int)),
            resetTime := e.resetTime }) ∧
    (∀ (opts : ResolvedOptions) (d : String) (now : Nat) (s : Store) (k : String),
        (storeGet now k (getDeviceStatus opts d now s).2).1 = (storeGet now k s).1) := by
  refine ⟨?_, ?_, ?_, ?_⟩
  · intro opts d now s h
    simp [getDeviceStatus, storeGet_of_lookup_none h]
  · intro opts d now s e h hlt
    simp [getDeviceStatus, storeGet_expired h hlt]
  · intro opts d now s e h hle
    simp [getDeviceStatus, storeGet_live h hle]
  · intro opts d now s k
    rcases hl : lookupKey ("device:" ++ d) s with _ | e
    · rw [show (getDeviceStatus opts d now s).2 = s by
        simp [getDeviceStatus, storeGet_of_lookup_none hl]]
    · by_cases hexp : e.resetTime < now
      · have h2 : (getDeviceStatus opts d now s).2 = eraseKey ("device:" ++ d) s := by
          simp [getDeviceStatus, storeGet_expired hl hexp]
        rw [h2]
        by_cases hk : ("device:" ++ d) = k
        · subst hk
          simp [storeGet_of_lookup_none (lookup_erase_self _ s),
            storeGet_expired hl hexp]
        · apply storeGet_fst_eq
          exact lookup_erase_ne hk s
      · rw [show (getDeviceStatus opts d now s).2 = s by
          simp [getDeviceStatus, storeGet_live hl (Nat.not_lt.mp hexp)]]

/-- C9 witness: the full-quota snapshot for a device with no entry. -/
theorem c9_witness :
    getDeviceStatus scenarioOpts "nosuchdevice1234" 5 [] =
      ({ count := 0, remaining := (scenarioOpts.maxRequests : Int),
         resetTime := 5 + scenarioOpts.windowMs }, []) :=
  c9_get_device_status.1 scenarioOpts "nosuchdevice1234" 5 [] rfl

/-- C10: every decision on a derived key increments that key exactly once
(the denial path included, since the store after the run is exactly the
store after one increment); an increment on a live entry adds one to
count and leaves windowStart and windowEnd unchanged; the reported
remaining is never negative and is clamped to 0 once count reaches
maxRequests, while the stored count itself keeps growing; and the
retry-after formula is antitone in now against the fixed windowEnd. -/
theorem c10_denied_requests_still_count :
    (∀ (w now : Nat) (k : String) (s : Store) (e : RateLimitEntry),
        lookupKey k s = some e → now ≤ e.resetTime →
        storeIncrement w now k s =
          ({ e with count := e.count + 1 },
           setKey k { e with count := e.count + 1 } s)) ∧
    (∀ (opts : ResolvedOptions) (key : String) (now : Nat) (s : Store),
        (runMiddleware opts (Except.ok key) now s).2 =
          (storeIncrement opts.windowMs now key s).2) ∧
    (∀ (opts : ResolvedOptions) (key : String) (now : Nat) (s : Store),
        0 ≤ (runMiddleware opts (Except.ok key) now s).1.reportedRemaining ∧
        (opts.maxRequests ≤ (storeIncrement opts.windowMs now key s).1.count →
          (runMiddleware opts (Except.ok key) now s).1.reportedRemaining = 0)) ∧
    (∀ (e : RateLimitEntry) (t₁ t₂ : Nat), t₁ ≤ t₂ →
        (e.resetTime - t₂ + 999) / 1000 ≤ (e.resetTime - t₁ + 999) / 1000) := by
  refine ⟨?_, ?_, ?_, ?_⟩
  · intro w now k s e h hle
    exact storeIncrement_live h hle
  · intro opts key now s
    by_cases h : opts.maxRequests < (storeIncrement opts.windowMs now key s).1.count
    · rw [runMiddleware_ok_limited h]
    · rw [runMiddleware_ok_next (Nat.not_lt.mp h)]
  · intro opts key now s
    by_cases h : opts.maxRequests < (storeIncrement opts.windowMs now key s).1.count
    · rw [runMiddleware_ok_limited h]
      exact ⟨le_refl 0, fun _ => rfl⟩
    · rw [runMiddleware_ok_next (Nat.not_lt.mp h)]
      refine ⟨le_max_left 0 _, fun hge => ?_⟩
      have hle := Nat.not_lt.mp h
      simp only [MwOutcome.reportedRemaining]
      omega
  · intro e t₁ t₂ h
    exact Nat.div_le_div_right (by omega)

/-- C10 witness: the live-entry increment clause on a concrete store. -/
theorem c10_witness :
    storeIncrement 1000 3 "device:abcdefgh12345678"
        [("device:abcdefgh12345678", { count := 3, resetTime := 1000, firstRequest := 0 })] =
      ({ count := 4, resetTime := 1000, firstRequest := 0 },
       setKey "device:abcdefgh12345678" { count := 4, resetTime := 1000, firstRequest := 0 }
         [("device:abcdefgh12345678", { count := 3, resetTime := 1000, firstRequest := 0 })]) :=
  c10_denied_requests_still_count.1 1000 3 "device:abcdefgh12345678"
    [("device:abcdefgh12345678", { count := 3, resetTime := 1000, firstRequest := 0 })]
    { count := 3, resetTime := 1000, firstRequest := 0 } (by decide) (by decide)

end Grub
